import Mathlib

set_option maxRecDepth 4000

/-!
Shallow embedding of `meeting_core_ffi_stub.c` (the non-`MEETING_USE_RUST_FFI`
branch), the C-ABI shim of the Meeting-assistant repository, together with the
parts of `meeting_core_ffi.h` it implements.

Modelling conventions:
* C pointers are `Option Nat`: `none` is `NULL`, `some p` is an address.
* The heap is explicit: `FFIState` keeps an association list for the runtime
  objects created by `malloc` in `ma_runtime_new` and one for the C strings
  created by `malloc` in `ma_invoke_json`, plus a fresh-address counter.
* `malloc` may fail; each allocating operation takes an `allocOk : Bool`
  oracle which is `true` exactly when the `malloc` it performs succeeds.
* The file-scope statics `g_callback` and `g_user_data` are fields of
  `FFIState`; a function pointer is opaque, modelled as `Option Nat`.
-/

/-- The `ma_runtime_stub` struct: `typedef struct \x7b int placeholder; \x7d`. -/
structure MaRuntimeStub where
  placeholder : Int
deriving DecidableEq

/-- Mutable state visible to the translation unit: the two file-scope statics
`g_callback` / `g_user_data`, the heap of live runtime objects, the heap of
live C strings returned by `ma_invoke_json`, and a fresh-address counter. -/
structure FFIState where
  runtimes : List (Nat × MaRuntimeStub)
  strings : List (Nat × List Char)
  g_callback : Option Nat
  g_user_data : Option Nat
  nextPtr : Nat
deriving DecidableEq

/-- The state at program start: empty heaps and
`static ma_event_callback g_callback = NULL; static void* g_user_data = NULL;`. -/
def initState : FFIState := ⟨[], [], none, none, 0⟩

/-- Association-list lookup of an address in a heap fragment. -/
def lookupPtr {α : Type} : List (Nat × α) → Nat → Option α
  | [], _ => none
  | (k, v) :: rest, p => if k = p then some v else lookupPtr rest p

/-- `ma_runtime_new`: ignores `config_json` (`(void)config_json;`), calls
`malloc(sizeof(ma_runtime_stub))`; on success sets `placeholder = 1` and
returns the new pointer, on failure returns `NULL` leaving state unchanged. -/
def ma_runtime_new (config_json : List Char) (allocOk : Bool) (s : FFIState) :
    Option Nat × FFIState :=
  if allocOk then
    let p := s.nextPtr
    (some p,
      { s with runtimes := (p, ⟨1⟩) :: s.runtimes, nextPtr := p + 1 })
  else
    (none, s)

/-- `ma_runtime_free`: `if (runtime_handle != NULL) free(runtime_handle);`. -/
def ma_runtime_free (runtime_handle : Option Nat) (s : FFIState) : FFIState :=
  match runtime_handle with
  | none => s
  | some p => { s with runtimes := s.runtimes.filter (fun e => e.1 ≠ p) }

/-- The canned payload of `ma_invoke_json` in the source, byte for byte. -/
def stubPayload : String :=
  "\x7b\"ok\":false,\"error\":\x7b\"code\":\"ffi_stub\",\"message\":\"Linked to local FFI stub. Replace with Rust libmeeting_core_ffi for production.\"\x7d\x7d"

/-- `ma_invoke_json`: ignores both `runtime_handle` and `request_json`
(`(void)` casts), `malloc`s `strlen(payload) + 1` bytes; on failure returns
`NULL` with no state change, on success copies the canned payload into the
fresh buffer and returns its address. -/
def ma_invoke_json (runtime_handle : Option Nat) (request_json : List Char)
    (allocOk : Bool) (s : FFIState) : Option Nat × FFIState :=
  if allocOk then
    let out := s.nextPtr
    (some out,
      { s with strings := (out, stubPayload.data) :: s.strings,
               nextPtr := out + 1 })
  else
    (none, s)

/-- `ma_set_event_callback`: ignores `runtime_handle` (`(void)` cast) and
overwrites the two file-scope statics with the arguments. -/
def ma_set_event_callback (runtime_handle : Option Nat) (callback : Option Nat)
    (user_data : Option Nat) (s : FFIState) : FFIState :=
  { s with g_callback := callback, g_user_data := user_data }

/-- `ma_free_c_string`: `if (ptr != NULL) free(ptr);`. -/
def ma_free_c_string (ptr : Option Nat) (s : FFIState) : FFIState :=
  match ptr with
  | none => s
  | some q => { s with strings := s.strings.filter (fun e => e.1 ≠ q) }

/-- The envelope text a caller of `ma_invoke_json` reads back: `none` when the
call returned `NULL`, otherwise the contents of the returned buffer in the
post-call heap. -/
def invokeResult (runtime_handle : Option Nat) (request_json : List Char)
    (allocOk : Bool) (s : FFIState) : Option (List Char) :=
  match ma_invoke_json runtime_handle request_json allocOk s with
  | (none, _) => none
  | (some p, s2) => lookupPtr s2.strings p

example : invokeResult none [] true initState = some stubPayload.data := by decide
example : invokeResult (some 5) ("hi".data) false initState = none := by rfl

/-!
A small executable JSON reader, used to state what it means for a response
envelope to be well formed and to conform to the minimum `\x7bok, error?\x7d`
schema of the spec.
-/

/-- JSON values. -/
inductive Json where
  | jnull : Json
  | jbool : Bool → Json
  | jstr : List Char → Json
  | jnum : Int → Json
  | jarr : List Json → Json
  | jobj : List (List Char × Json) → Json

/-- Whitespace recognizer for the reader. -/
def isWs (c : Char) : Bool := c = ' ' || c = '\n' || c = '\t' || c = '\r'

/-- Drop leading whitespace. -/
def skipWs : List Char → List Char
  | [] => []
  | c :: cs => if isWs c then skipWs cs else c :: cs

/-- Read a JSON string body (the opening quote already consumed), returning
the decoded characters and the remaining input. -/
def parseStringBody : List Char → Option (List Char × List Char)
  | [] => none
  | c :: cs =>
    if c = '"' then some ([], cs)
    else if c = '\\' then
      match cs with
      | [] => none
      | e :: cs2 =>
        let ec : Option Char :=
          if e = '"' then some '"'
          else if e = '\\' then some '\\'
          else if e = '/' then some '/'
          else if e = 'n' then some '\n'
          else if e = 't' then some '\t'
          else if e = 'r' then some '\r'
          else none
        match ec with
        | none => none
        | some d =>
          match parseStringBody cs2 with
          | some (str, rest) => some (d :: str, rest)
          | none => none
    else
      match parseStringBody cs with
      | some (str, rest) => some (c :: str, rest)
      | none => none

/-- Split a leading run of decimal digits off the input. -/
def takeDigits : List Char → List Char × List Char
  | [] => ([], [])
  | c :: cs =>
    if c.isDigit then
      let (d, r) := takeDigits cs
      (c :: d, r)
    else ([], c :: cs)

/-- Value of a digit string. -/
def digitsToNat (ds : List Char) : Nat :=
  ds.foldl (fun acc c => acc * 10 + (c.toNat - 48)) 0

mutual

/-- Read one JSON value; `fuel` bounds the recursion depth. -/
def parseValue : Nat → List Char → Option (Json × List Char)
  | 0, _ => none
  | Nat.succ fuel, input =>
    match skipWs input with
    | [] => none
    | c :: cs =>
      if c = '"' then
        match parseStringBody cs with
        | some (str, rest) => some (Json.jstr str, rest)
        | none => none
      else if c = '\x7b' then
        match skipWs cs with
        | d :: ds =>
          if d = '\x7d' then some (Json.jobj [], ds)
          else
            match parseMembers fuel (d :: ds) with
            | some (ms, rest) => some (Json.jobj ms, rest)
            | none => none
        | [] => none
      else if c = '[' then
        match skipWs cs with
        | d :: ds =>
          if d = ']' then some (Json.jarr [], ds)
          else
            match parseElems fuel (d :: ds) with
            | some (xs, rest) => some (Json.jarr xs, rest)
            | none => none
        | [] => none
      else if c = 't' then
        match cs with
        | 'r' :: 'u' :: 'e' :: rest => some (Json.jbool true, rest)
        | _ => none
      else if c = 'f' then
        match cs with
        | 'a' :: 'l' :: 's' :: 'e' :: rest => some (Json.jbool false, rest)
        | _ => none
      else if c = 'n' then
        match cs with
        | 'u' :: 'l' :: 'l' :: rest => some (Json.jnull, rest)
        | _ => none
      else if c = '-' then
        match takeDigits cs with
        | ([], _) => none
        | (ds, rest) => some (Json.jnum (-(Int.ofNat (digitsToNat ds))), rest)
      else if c.isDigit then
        match takeDigits (c :: cs) with
        | (ds, rest) => some (Json.jnum (Int.ofNat (digitsToNat ds)), rest)
      else none

/-- Read a nonempty comma-separated member list and the closing brace. -/
def parseMembers : Nat → List Char →
    Option (List (List Char × Json) × List Char)
  | 0, _ => none
  | Nat.succ fuel, input =>
    match skipWs input with
    | '"' :: cs =>
      match parseStringBody cs with
      | some (key, rest1) =>
        match skipWs rest1 with
        | ':' :: rest2 =>
          match parseValue fuel rest2 with
          | some (v, rest3) =>
            match skipWs rest3 with
            | ',' :: rest4 =>
              match parseMembers fuel rest4 with
              | some (ms, rest5) => some ((key, v) :: ms, rest5)
              | none => none
            | '\x7d' :: rest4 => some ([(key, v)], rest4)
            | _ => none
          | none => none
        | _ => none
      | none => none
    | _ => none

/-- Read a nonempty comma-separated element list and the closing bracket. -/
def parseElems : Nat → List Char → Option (List Json × List Char)
  | 0, _ => none
  | Nat.succ fuel, input =>
    match parseValue fuel input with
    | some (v, rest1) =>
      match skipWs rest1 with
      | ',' :: rest2 =>
        match parseElems fuel rest2 with
        | some (xs, rest3) => some (v :: xs, rest3)
        | none => none
      | ']' :: rest2 => some ([v], rest2)
      | _ => none
    | none => none

end

/-- Read a complete JSON document: one value followed only by whitespace. -/
def parseJson (s : List Char) : Option Json :=
  match parseValue (s.length + 1) s with
  | some (j, rest) => if skipWs rest = [] then some j else none
  | none => none

/-- Field lookup in a parsed object (first occurrence wins). -/
def lookupField : List (List Char × Json) → List Char → Option Json
  | [], _ => none
  | (k, v) :: fs, key => if k = key then some v else lookupField fs key

/-- True when the optional value is a JSON string with at least one char. -/
def isNonEmptyStr : Option Json → Bool
  | some (Json.jstr (_ :: _)) => true
  | _ => false

/-- The minimum response-envelope schema of the spec: a JSON object with a
boolean `ok`; when `ok` is `false` an `error` object with non-empty string
fields `code` and `message` must be present, and when `ok` is `true` the
`error` field must be absent. -/
def minSchemaOk : Json → Bool
  | Json.jobj fs =>
    match lookupField fs ("ok".data) with
    | some (Json.jbool true) => (lookupField fs ("error".data)).isNone
    | some (Json.jbool false) =>
      match lookupField fs ("error".data) with
      | some (Json.jobj es) =>
        isNonEmptyStr (lookupField es ("code".data)) &&
          isNonEmptyStr (lookupField es ("message".data))
      | _ => false
    | _ => false
  | _ => false

/-- Well-formed envelope: the bytes parse as JSON and satisfy `minSchemaOk`. -/
def wellFormedEnvelope (s : List Char) : Bool :=
  match parseJson s with
  | some j => minSchemaOk j
  | none => false

/-- The `ok` field of an envelope, when the envelope parses as an object. -/
def envelopeOkField (s : List Char) : Option Json :=
  match parseJson s with
  | some (Json.jobj fs) => lookupField fs ("ok".data)
  | _ => none

/-- The `error` object of an envelope, when present. -/
def envelopeError (s : List Char) : Option (List (List Char × Json)) :=
  match parseJson s with
  | some (Json.jobj fs) =>
    match lookupField fs ("error".data) with
    | some (Json.jobj es) => some es
    | _ => none
  | _ => none

example : wellFormedEnvelope stubPayload.data = true := by decide

/-!
Trace model: one boundary call per step. Each step returns the successor
state and the list of callback invocations the call performs. In the source
no function ever calls through `g_callback` (the statics are only written, in
`ma_set_event_callback`, and initialized to NULL), so every step emits the
empty event list.
-/

/-- One call into the boundary, with its allocation oracle where relevant. -/
inductive BoundaryOp where
  | create (config : List Char) (allocOk : Bool) : BoundaryOp
  | destroy (h : Option Nat) : BoundaryOp
  | invoke (h : Option Nat) (req : List Char) (allocOk : Bool) : BoundaryOp
  | setCallback (h : Option Nat) (cb : Option Nat) (ud : Option Nat) : BoundaryOp
  | releaseText (p : Option Nat) : BoundaryOp

/-- An observable delivery of an event to the host: a call through the
registered callback pointer with the stored user context. -/
inductive BoundaryEvent where
  | callbackInvoked (cb : Nat) (ud : Option Nat) (eventJson : List Char) :
      BoundaryEvent

/-- Effect of one boundary call: successor state and emitted callback
invocations. Every branch of every source function is free of calls through
`g_callback`, hence every step emits `[]`. -/
def stepOp (op : BoundaryOp) (s : FFIState) : FFIState × List BoundaryEvent :=
  match op with
  | BoundaryOp.create cfg ok => ((ma_runtime_new cfg ok s).2, [])
  | BoundaryOp.destroy h => (ma_runtime_free h s, [])
  | BoundaryOp.invoke h req ok => ((ma_invoke_json h req ok s).2, [])
  | BoundaryOp.setCallback h cb ud => (ma_set_event_callback h cb ud s, [])
  | BoundaryOp.releaseText p => (ma_free_c_string p s, [])

/-- Run a sequence of boundary calls, concatenating the emitted events. -/
def runOps : List BoundaryOp → FFIState → FFIState × List BoundaryEvent
  | [], s => (s, [])
  | op :: ops, s =>
    ((runOps ops (stepOp op s).1).1,
      (stepOp op s).2 ++ (runOps ops (stepOp op s).1).2)

/-- The (callback pointer, user context) registration the runtime holds when
delivering events for handle `h`: the source keeps one file-scope pair
(`g_callback`, `g_user_data`), so every handle reads the same slot. -/
def registrationFor (s : FFIState) (h : Nat) : Option Nat × Option Nat :=
  (s.g_callback, s.g_user_data)

/-!
Helper lemmas shared by the claim theorems.
-/

/-- When its allocation succeeds, `ma_invoke_json` hands back a buffer whose
contents are exactly the canned payload. -/
theorem invokeResult_true_eq (h : Option Nat) (req : List Char) (s : FFIState) :
    invokeResult h req true s = some stubPayload.data := by
  simp [invokeResult, ma_invoke_json, lookupPtr]

/-- The canned payload is a well-formed envelope. -/
theorem stubPayload_wellFormed : wellFormedEnvelope stubPayload.data = true := by
  decide

/-- The field list of the `error` object inside the canned payload. -/
def stubErrorFields : List (List Char × Json) :=
  [("code".data, Json.jstr ("ffi_stub".data)),
   ("message".data,
    Json.jstr ("Linked to local FFI stub. Replace with Rust libmeeting_core_ffi for production.".data))]

/-- No single boundary call emits a callback invocation. -/
theorem stepOp_events_nil (op : BoundaryOp) (s : FFIState) :
    (stepOp op s).2 = [] := by
  cases op <;> rfl

/-!
The claim theorems.
-/

/-- C1: for every handle, request text and pre-state, `ma_invoke_json`
returns null exactly when its allocation fails, and whenever the allocation
succeeds it returns a non-null buffer holding a well-formed envelope; null is
never used to signal a domain error. -/
theorem ma_invoke_json_null_only_on_alloc_failure
    (h : Option Nat) (req : List Char) (s : FFIState) :
    (∀ allocOk : Bool, invokeResult h req allocOk s = none ↔ allocOk = false) ∧
    ∃ e, invokeResult h req true s = some e ∧ wellFormedEnvelope e = true := by
  constructor
  · intro allocOk
    cases allocOk
    · simp [invokeResult, ma_invoke_json]
    · simp [invokeResult_true_eq]
  · exact ⟨stubPayload.data, invokeResult_true_eq h req s, stubPayload_wellFormed⟩

/-- C2: the non-null envelope returned by `ma_invoke_json` conforms to the
minimum schema with `ok = false` and an `error` object present whose `code`
is the non-empty string "ffi_stub" and whose `message` is non-empty. -/
theorem ma_invoke_json_stub_error_envelope
    (h : Option Nat) (req : List Char) (s : FFIState) :
    ∃ e, invokeResult h req true s = some e ∧
      wellFormedEnvelope e = true ∧
      envelopeOkField e = some (Json.jbool false) ∧
      ∃ es, envelopeError e = some es ∧
        lookupField es ("code".data) = some (Json.jstr ("ffi_stub".data)) ∧
        isNonEmptyStr (lookupField es ("code".data)) = true ∧
        isNonEmptyStr (lookupField es ("message".data)) = true := by
  refine ⟨stubPayload.data, invokeResult_true_eq h req s,
    stubPayload_wellFormed, by rfl, stubErrorFields, by rfl, by rfl,
    by decide, by decide⟩

/-- C3: for every config text (the empty text included) and every pre-state,
when the allocation succeeds `ma_runtime_new` returns a non-null handle whose
object is initialized (`placeholder = 1`), and no configuration is ever
rejected: the call's outcome does not depend on the config at all. -/
theorem ma_runtime_new_never_rejects_config
    (config : List Char) (s : FFIState) :
    (ma_runtime_new config true s).1 = some s.nextPtr ∧
    lookupPtr ((ma_runtime_new config true s).2).runtimes s.nextPtr =
      some ⟨1⟩ ∧
    ∀ config2, ma_runtime_new config2 true s = ma_runtime_new config true s := by
  refine ⟨rfl, ?_, fun _ => rfl⟩
  simp [ma_runtime_new, lookupPtr]

/-- C4 (counterexample to per-handle storage): with two live handles 0 and 1,
registering a callback on handle 1 overwrites the registration in force for
handle 0, because the source stores one file-scope pair for all handles. -/
theorem set_event_callback_cross_handle_interference :
    lookupPtr (ma_set_event_callback (some 1) (some 9) (some 90)
        (ma_set_event_callback (some 0) (some 7) (some 70)
          (ma_runtime_new [] true ((ma_runtime_new [] true initState).2)).2)).runtimes
        0 = some ⟨1⟩ ∧
    lookupPtr (ma_set_event_callback (some 1) (some 9) (some 90)
        (ma_set_event_callback (some 0) (some 7) (some 70)
          (ma_runtime_new [] true ((ma_runtime_new [] true initState).2)).2)).runtimes
        1 = some ⟨1⟩ ∧
    registrationFor (ma_set_event_callback (some 0) (some 7) (some 70)
        (ma_runtime_new [] true ((ma_runtime_new [] true initState).2)).2) 0 =
      (some 7, some 70) ∧
    registrationFor (ma_set_event_callback (some 1) (some 9) (some 90)
        (ma_set_event_callback (some 0) (some 7) (some 70)
          (ma_runtime_new [] true ((ma_runtime_new [] true initState).2)).2)) 0 =
      (some 9, some 90) := by
  decide

/-- C5: over any sequence of boundary calls from any start state, no call
ever invokes the registered event callback: the emitted event trace is empty. -/
theorem callback_never_invoked (ops : List BoundaryOp) (s : FFIState) :
    (runOps ops s).2 = [] := by
  induction ops generalizing s with
  | nil => rfl
  | cons op ops ih =>
    simp [runOps, stepOp_events_nil, ih]

/-- C6: the output of `ma_invoke_json` is deterministic and independent of
both the handle and the request text: any two allocation-succeeding calls
return equal envelope strings, and the full call result never depends on
either input. -/
theorem ma_invoke_json_output_independent_of_inputs
    (h1 h2 : Option Nat) (r1 r2 : List Char) (s1 s2 : FFIState) :
    invokeResult h1 r1 true s1 = invokeResult h2 r2 true s2 ∧
    ∀ (ok : Bool) (s : FFIState),
      ma_invoke_json h1 r1 ok s = ma_invoke_json h2 r2 ok s := by
  refine ⟨?_, fun _ _ => rfl⟩
  rw [invokeResult_true_eq, invokeResult_true_eq]

/-- C7: `ma_runtime_free` on a null handle is a no-op: the whole program
state is returned unchanged. -/
theorem ma_runtime_free_null_noop (s : FFIState) : ma_runtime_free none s = s :=
  rfl

/-- C8: `ma_free_c_string` on a null pointer is a no-op: the whole program
state is returned unchanged. -/
theorem ma_free_c_string_null_noop (s : FFIState) : ma_free_c_string none s = s :=
  rfl

/-- C9: `ma_invoke_json` leaves the runtime heap (hence every handle's
contents) and the global callback registration untouched for every input,
and in the allocation-failure branch the whole state is unchanged. -/
theorem ma_invoke_json_frame
    (h : Option Nat) (req : List Char) (ok : Bool) (s : FFIState) :
    ((ma_invoke_json h req ok s).2).runtimes = s.runtimes ∧
    ((ma_invoke_json h req ok s).2).g_callback = s.g_callback ∧
    ((ma_invoke_json h req ok s).2).g_user_data = s.g_user_data ∧
    (ma_invoke_json h req false s).2 = s := by
  cases ok <;> exact ⟨rfl, rfl, rfl, rfl⟩

/-- C10: `ma_invoke_json` and `ma_set_event_callback` never read their handle
argument: replacing the handle by any other value, null included, changes
neither the result nor the state effect. -/
theorem handle_argument_never_dereferenced
    (h1 h2 : Option Nat) (req : List Char) (ok : Bool)
    (cb ud : Option Nat) (s : FFIState) :
    ma_invoke_json h1 req ok s = ma_invoke_json h2 req ok s ∧
    ma_set_event_callback h1 cb ud s = ma_set_event_callback h2 cb ud s ∧
    ma_invoke_json none req ok s = ma_invoke_json h1 req ok s ∧
    ma_set_event_callback none cb ud s = ma_set_event_callback h1 cb ud s :=
  ⟨rfl, rfl, rfl, rfl⟩

